import Mathlib

/-!
Shallow embedding of the holidayapi-rust client library (src/lib.rs) and of the
request-builder layer described by its design document, together with proofs of
the behavioural claims about key/version validation, facade construction, URL
building and error propagation.

Conventions of the embedding:
  - Rust `Result<T, E>` becomes `Except E T`; `Option` stays `Option`.
  - A Rust operation that can panic (an `unwrap`/`expect` on an externally
    controlled value) is modelled as returning `Option`, with `none` standing
    for the panic.
  - The HTTP transport is an explicit input (`TransportOutcome`): either a
    send failure (no HTTP response, as produced by `reqwest::Client::send`)
    or a response with a status code and a body.  The body is a `BodyRead`:
    reading it (`Response::text`) can itself fail, and a readable body is
    carried already parsed as `Option Json` (`none` models text that is not
    valid JSON), which abstracts `serde_json::from_str`.
  - Machine integers (`i32`) are modelled as `Int`; no arithmetic overflow is
    reachable in the code under consideration.
-/

/-- Observers of a `reqwest::Error`: an error produced by `error_for_status`
carries the response status and the url, while an error produced by a failed
`send` carries a url but no status (`status()` returns `None` for it). -/
structure ReqwestError where
  status : Option Nat
  url : Option String
  deriving DecidableEq

/-- The error enum of src/lib.rs (`HolidayAPIError`). -/
inductive HolidayAPIError where
  | InvalidKeyFormat : String → HolidayAPIError
  | InvalidOrExpiredKey : String → HolidayAPIError
  | InvalidVersion : String → HolidayAPIError
  | RequestError : ReqwestError → String → HolidayAPIError
  deriving DecidableEq

/-- Single-quote character, used by the `Display` implementation. -/
def squote : String := String.singleton (Char.ofNat 39)

/-- Models `impl fmt::Display for HolidayAPIError` (src/lib.rs lines 54-73).
The `RequestError` arm calls `req.status().unwrap()` and `req.url().unwrap()`;
those unwraps panic when the wrapped `reqwest::Error` has no status or no url,
which is modelled by returning `none`.  The status code is rendered through its
numeric value. -/
def displayError : HolidayAPIError → Option String
  | HolidayAPIError.InvalidKeyFormat key => some ("Invalid key: " ++ key)
  | HolidayAPIError.InvalidVersion version => some ("Invalid version: " ++ version)
  | HolidayAPIError.InvalidOrExpiredKey key => some ("Invalid or expired key: " ++ key)
  | HolidayAPIError.RequestError req err =>
    match req.status, req.url with
    | some st, some u =>
      some (toString st ++ ": " ++ err ++ "\nRaw url: " ++ squote ++ u ++ squote)
    | _, _ => none

/-- Lowercase hexadecimal digit: `[0-9a-f]` (code points 48-57 and 97-102). -/
def isHexLower (c : Char) : Bool :=
  (decide (48 ≤ c.toNat) && decide (c.toNat ≤ 57)) ||
    (decide (97 ≤ c.toNat) && decide (c.toNat ≤ 102))

/-- Consumes exactly `n` lowercase hex digits, returning the rest of the
input, or `none` when the input does not begin with `n` such digits. -/
def hexRun : Nat → List Char → Option (List Char)
  | 0, cs => some cs
  | _ + 1, [] => none
  | n + 1, c :: cs => if isHexLower c then hexRun n cs else none

/-- Consumes exactly one dash character. -/
def dashRun : List Char → Option (List Char)
  | [] => none
  | c :: cs => if c == Char.ofNat 45 then some cs else none

/-- Runs a list of consuming steps in sequence. -/
def runSteps : List (List Char → Option (List Char)) → List Char → Option (List Char)
  | [], cs => some cs
  | f :: fs, cs => (f cs).bind (runSteps fs)

/-- The group structure of the regex
`[0-9a-f]\x7b8\x7d-[0-9a-f]\x7b4\x7d-[0-9a-f]\x7b4\x7d-[0-9a-f]\x7b4\x7d-[0-9a-f]\x7b12\x7d`
used by `HolidayAPI::is_valid_key`: runs of 8, 4, 4, 4 and 12 lowercase hex
digits separated by dashes. -/
def uuidSteps : List (List Char → Option (List Char)) :=
  [hexRun 8, dashRun, hexRun 4, dashRun, hexRun 4, dashRun, hexRun 4, dashRun, hexRun 12]

/-- Matches the uuid regex against a prefix of the input, returning the
unconsumed rest on success. -/
def uuidConsume (cs : List Char) : Option (List Char) :=
  runSteps uuidSteps cs

/-- True when some prefix of the input matches the uuid regex. -/
def matchUuidFrom (cs : List Char) : Bool :=
  (uuidConsume cs).isSome

/-- True when the input as a whole is exactly of the uuid shape
8-4-4-4-12 lowercase hex groups: this is the full (anchored) match of the
pattern, the reading used by the specification. -/
def isUuidShape (cs : List Char) : Bool :=
  match uuidConsume cs with
  | some [] => true
  | _ => false

/-- Models `Regex::is_match` for the fixed uuid pattern: the regex crate
performs an unanchored search, so the result is true iff the pattern matches
at some position of the input, i.e. some contiguous substring is of the uuid
shape. -/
def regexUuidIsMatch : List Char → Bool
  | [] => matchUuidFrom []
  | c :: cs => matchUuidFrom (c :: cs) || regexUuidIsMatch cs

/-- The facade struct of src/lib.rs (`HolidayAPI`), holding the base url and
the key. -/
structure HolidayAPI where
  base_url : String
  key : String
  deriving DecidableEq

/-- Models `HolidayAPI::is_valid_key` (src/lib.rs lines 77-87): checks the key
with `Regex::is_match` against the uuid pattern and returns
`InvalidKeyFormat` when there is no match. -/
def HolidayAPI.is_valid_key (key : String) : Except HolidayAPIError Unit :=
  if regexUuidIsMatch key.data then Except.ok ()
  else Except.error (HolidayAPIError.InvalidKeyFormat key)

/-- The `valid_versions` array of `HolidayAPI::is_valid_version`. -/
def valid_versions : List Int := [1]

/-- Models `HolidayAPI::is_valid_version` (src/lib.rs lines 89-99).  The Rust
code formats the message with the debug rendering of `valid_versions`, which
is the literal text rendered here. -/
def HolidayAPI.is_valid_version (version : Int) : Except HolidayAPIError Unit :=
  if !(valid_versions.contains version) then
    Except.error (HolidayAPIError.InvalidVersion
      ("Invalid version: " ++ toString version ++ ", please choose: [1]"))
  else Except.ok ()

/-- Models `HolidayAPI::construct_api` (src/lib.rs lines 100-105). -/
def HolidayAPI.construct_api (key : String) (version : Int) : HolidayAPI :=
  { base_url := "https://holidayapi.com/v" ++ toString version ++ "/", key := key }

/-- Models `HolidayAPI::new` (src/lib.rs lines 121-125). -/
def HolidayAPI.new (key : String) : Except HolidayAPIError HolidayAPI :=
  (HolidayAPI.is_valid_key key).bind (fun _ =>
    Except.ok (HolidayAPI.construct_api key 1))

/-- Models `HolidayAPI::with_version` (src/lib.rs lines 143-148): key is
validated first, version second. -/
def HolidayAPI.with_version (key : String) (version : Int) : Except HolidayAPIError HolidayAPI :=
  (HolidayAPI.is_valid_key key).bind (fun _ =>
    (HolidayAPI.is_valid_version version).bind (fun _ =>
      Except.ok (HolidayAPI.construct_api key version)))

/-- A JSON value, abstracting `serde_json::Value`. -/
inductive Json where
  | null : Json
  | bool : Bool → Json
  | num : Int → Json
  | str : String → Json
  | arr : List Json → Json
  | obj : List (String × Json) → Json

/-- Models `Value::as_object` (restricted to its field list). -/
def Json.asObject : Json → Option (List (String × Json))
  | Json.obj fields => some fields
  | _ => none

/-- Models `Value::as_str`. -/
def Json.asStr : Json → Option String
  | Json.str s => some s
  | _ => none

/-- Models `Map::get` on a JSON object: lookup of a field by name. -/
def jsonGet (fields : List (String × Json)) (name : String) : Option Json :=
  fields.lookup name

/-- The readability and content of a response body.  `Response::text` is a
fallible operation: `readFailure` models it returning `Err` (the `unwrap` on
it at src/lib.rs line 181 then panics), and `text` models a body that reads
successfully, carried already parsed as JSON when it is valid JSON (`none`
models text that is not valid JSON). -/
inductive BodyRead where
  | readFailure : BodyRead
  | text : Option Json → BodyRead

/-- The outcome of the underlying HTTP transport for one GET, an explicit
input of the model.  `response` carries the HTTP status code and the body as
a `BodyRead`.  `sendFailure` models `send()` returning an error before any
HTTP response exists; the carried value is the url recorded in the
`reqwest::Error`, whose `status()` is `None` in that case. -/
inductive TransportOutcome where
  | sendFailure : Option String → TransportOutcome
  | response : Nat → BodyRead → TransportOutcome

/-- A successful raw HTTP response, as returned by `custom_request`; its body
is returned unread. -/
structure HttpResponse where
  status : Nat
  url : String
  body : BodyRead

/-- Models `Response::error_for_status_ref`: it yields an error exactly for
client-error (400-499) and server-error (500-599) status codes. -/
def isErrorStatus (status : Nat) : Bool :=
  decide (400 ≤ status) && decide (status ≤ 599)

/-- Models `str::to_ascii_lowercase`: `Char.toLower` maps exactly the ASCII
uppercase letters to lowercase, as the Rust function does. -/
def lowerAscii (s : String) : String := String.mk (s.data.map Char.toLower)

/-- True when the string begins with a slash. -/
def startsWithSlash (s : String) : Bool :=
  match s.data with
  | [] => false
  | c :: _ => c == Char.ofNat 47

/-- Models rust-url `Url::join` for the inputs reachable here: the base is
always of the form `https://holidayapi.com/v<n>/` produced by
`construct_api` (a url with a path ending in a slash and neither query nor
fragment), and the reference is resolved per RFC 3986: a reference beginning
with a slash becomes an absolute path on the same scheme and authority,
discarding the base path, while a plain relative segment is appended to the
base path. -/
def urlJoin (base ref : String) : String :=
  if startsWithSlash ref then "https://holidayapi.com" ++ ref else base ++ ref

/-- Uppercase hexadecimal digit character for a value below 16. -/
def hexDigitChar (n : Nat) : Char :=
  if n < 10 then Char.ofNat (48 + n) else Char.ofNat (55 + n)

/-- Percent-encodes one byte. -/
def percentByte (b : Nat) : String :=
  String.singleton (Char.ofNat 37) ++ String.singleton (hexDigitChar (b / 16))
    ++ String.singleton (hexDigitChar (b % 16))

/-- Form-urlencoding of one character, as rust-url serializes appended query
pairs: ASCII alphanumerics and `*-._` are kept, a space becomes `+`, and any
other character is percent-encoded byte by byte (UTF-8). -/
def formEncodeChar (c : Char) : String :=
  if c.isAlphanum || c == Char.ofNat 42 || c == Char.ofNat 45
      || c == Char.ofNat 46 || c == Char.ofNat 95 then
    String.singleton c
  else if c == Char.ofNat 32 then String.singleton (Char.ofNat 43)
  else String.join (((String.singleton c).toUTF8.toList).map (fun b => percentByte b.toNat))

/-- Form-urlencoding of a string. -/
def formEncode (s : String) : String :=
  String.join (s.data.map formEncodeChar)

/-- Serialization of the caller-supplied parameter pairs appended to a url
that already has a query (the `?key=` part), as `Url::parse_with_params`
does.  The `HashMap` of the Rust signature is modelled as an association
list. -/
def serializeParams (parameters : List (String × String)) : String :=
  String.join (parameters.map (fun p => "&" ++ formEncode p.1 ++ "=" ++ formEncode p.2))

/-- The url built by `custom_request` (src/lib.rs lines 167-171): the base
url joined with the ASCII-lowercased endpoint, then `?key=<key>`, then the
caller-supplied parameters. -/
def HolidayAPI.custom_request_url (api : HolidayAPI) (endpoint : String)
    (parameters : List (String × String)) : String :=
  urlJoin api.base_url (lowerAscii endpoint) ++ "?key=" ++ api.key
    ++ serializeParams parameters

/-- The message that the error path of `custom_request` extracts from the
response body (src/lib.rs lines 181-188): `none` collects the panics of that
path — `response.text().await.unwrap()` when reading the body fails,
`expect` when the text is not valid JSON, and the `unwrap`s when the JSON is
not an object with an `error` field or that field is not a string. -/
def errorMsgOf : BodyRead → Option String
  | BodyRead.readFailure => none
  | BodyRead.text none => none
  | BodyRead.text (some val) =>
    match (val.asObject).bind (fun o => jsonGet o ("error")) with
    | none => none
    | some errVal => errVal.asStr

/-- Models `HolidayAPI::custom_request` (src/lib.rs lines 162-192) as a
function of the transport outcome, given that the url-building step of lines
167-171 succeeded (the fallibility of that step is modelled separately by
`urlJoinCheck` and composed in `custom_request_run`; the url built on
success is `custom_request_url`).  A send failure is wrapped as
`RequestError(e, "")`.  On a response with an error status the message is
extracted from the body by `errorMsgOf`, whose `none` cases are the panics
of that path, and the result is `RequestError` carrying the status-bearing
error and that message.  On a success status the raw response is returned
with its body unread. -/
def HolidayAPI.custom_request (api : HolidayAPI) (endpoint : String)
    (parameters : List (String × String)) (outcome : TransportOutcome) :
    Option (Except HolidayAPIError HttpResponse) :=
  let url := HolidayAPI.custom_request_url api endpoint parameters
  match outcome with
  | TransportOutcome.sendFailure u =>
    some (Except.error (HolidayAPIError.RequestError { status := none, url := u } ""))
  | TransportOutcome.response status body =>
    if isErrorStatus status then
      match errorMsgOf body with
      | none => none
      | some msg =>
        some (Except.error (HolidayAPIError.RequestError
          { status := some status, url := some url } msg))
    else some (Except.ok { status := status, url := url, body := body })

/-- Modelled from the spec: the per-endpoint Request builders live in
src/requests.rs, whose source file is absent (only src/lib.rs
is present).  Per the design document a builder of any endpoint has one shared
shape: it holds the facade, the endpoint path, the endpoint-mandatory fields
seeded at construction (kept here as the parameter pairs they serialize to),
and a mapping from optional-parameter name to string value. -/
structure Request where
  api : HolidayAPI
  endpoint : String
  required : List (String × String)
  parameters : List (String × String)

/-- Modelled from the spec: each fluent setter inserts or overwrites one
entry of the optional-parameter mapping; an existing entry with the same
name is replaced (last write wins). -/
def insertParam (parameters : List (String × String)) (name value : String) :
    List (String × String) :=
  (name, value) :: parameters.filter (fun p => !(p.1 == name))

/-- Modelled from the spec: the `.month(m)` setter of a holidays builder. -/
def Request.month (r : Request) (m : Int) : Request :=
  { r with parameters := insertParam r.parameters ("month") (toString m) }

/-- Modelled from the spec: the `.day(d)` setter. -/
def Request.day (r : Request) (d : Int) : Request :=
  { r with parameters := insertParam r.parameters ("day") (toString d) }

/-- Modelled from the spec: the `.public()` flag setter. -/
def Request.publicFlag (r : Request) : Request :=
  { r with parameters := insertParam r.parameters ("public") ("true") }

/-- Modelled from the spec: the `.upcoming()` flag setter. -/
def Request.upcoming (r : Request) : Request :=
  { r with parameters := insertParam r.parameters ("upcoming") ("true") }

/-- Modelled from the spec: the `.search(text)` setter. -/
def Request.search (r : Request) (text : String) : Request :=
  { r with parameters := insertParam r.parameters ("search") text }

/-- Models `HolidayAPI::countries` (src/lib.rs line 213): a minimal countries
request. -/
def HolidayAPI.countries (api : HolidayAPI) : Request :=
  { api := api, endpoint := "countries", required := [], parameters := [] }

/-- Models `HolidayAPI::holidays` (src/lib.rs line 236): a holidays request
seeded with the required country and year. -/
def HolidayAPI.holidays (api : HolidayAPI) (country : String) (year : Int) : Request :=
  { api := api, endpoint := "holidays",
    required := [("country", country), ("year", toString year)], parameters := [] }

/-- Models `HolidayAPI::workday` (src/lib.rs line 251). -/
def HolidayAPI.workday (api : HolidayAPI) (country start : String) (days : Int) : Request :=
  { api := api, endpoint := "workday",
    required := [("country", country), ("start", start), ("days", toString days)],
    parameters := [] }

/-- Models `HolidayAPI::workdays` (src/lib.rs line 266). -/
def HolidayAPI.workdays (api : HolidayAPI) (country start days : String) : Request :=
  { api := api, endpoint := "workdays",
    required := [("country", country), ("start", start), ("end", days)],
    parameters := [] }

/-- Models `HolidayAPI::languages` (src/lib.rs line 289). -/
def HolidayAPI.languages (api : HolidayAPI) : Request :=
  { api := api, endpoint := "languages", required := [], parameters := [] }

/-- Modelled from the spec: the terminal `get()` of a builder serializes the
required fields and the accumulated optional parameters and then behaves
identically to `custom_request` on the endpoint of the builder; decoding of a
successful body into the typed response is omitted (a schema mismatch is a
fatal condition per the design document and is outside the claims). -/
def Request.get (r : Request) (outcome : TransportOutcome) :
    Option (Except HolidayAPIError HttpResponse) :=
  HolidayAPI.custom_request r.api r.endpoint (r.required ++ r.parameters) outcome

/-- True exactly for the `InvalidOrExpiredKey` variant. -/
def errIsIOE : HolidayAPIError → Bool
  | HolidayAPIError.InvalidOrExpiredKey _ => true
  | _ => false

/-- True when a facade-construction result is an `InvalidOrExpiredKey`
error. -/
def exceptHasIOE : Except HolidayAPIError HolidayAPI → Bool
  | Except.error e => errIsIOE e
  | _ => false

/-- True when a request result is an `InvalidOrExpiredKey` error. -/
def resultHasIOE : Option (Except HolidayAPIError HttpResponse) → Bool
  | some (Except.error e) => errIsIOE e
  | _ => false

/-- A fixed facade built from the all-zero uuid key, used for concrete
instances. -/
def apiC : HolidayAPI :=
  HolidayAPI.construct_api ("00000000-0000-0000-0000-000000000000") 1

/-- Characters that need no encoding in a url path segment and are not
reserved delimiters: the inputs for which the url-building model is stated. -/
def plainChar (c : Char) : Bool :=
  c.isAlphanum || c == Char.ofNat 45 || c == Char.ofNat 95

/-- A plain relative path segment: nonempty strings of such characters are
appended verbatim to a base url ending in a slash by RFC 3986 resolution,
and the empty string resolves to the base itself. -/
def isPlainSegment (s : String) : Bool :=
  s.data.all plainChar

/-- A plain root path: a single slash followed by plain characters only.
Such a reference is an absolute-path reference (and, having no second slash,
is not a network-path reference), so RFC 3986 resolution replaces the base
path with it on the same scheme and authority. -/
def isPlainRootPath (s : String) : Bool :=
  match s.data with
  | [] => false
  | c :: rest => c == Char.ofNat 47 && rest.all plainChar

/-- Models the `Result` of the url-building step of `custom_request`
(src/lib.rs lines 167-171: `Url::join` on the lowercased endpoint and the
`Url::parse_with_params` re-parse), which the code unwraps.  `some` is the
resolved url for the reference forms the development classifies — a plain
relative segment or a plain root path, on which rust-url resolves against
the `construct_api` bases exactly as `urlJoin` renders and the re-parse
succeeds.  `none` means the step is not warranted to succeed: the url
library rejects some such references — for example `http://`, a special
scheme with an empty authority, is an empty-host parse error, `Url::join`
returns `Err`, and the `unwrap` at line 169 panics. -/
def urlJoinCheck (base ref : String) : Option String :=
  if isPlainSegment ref || isPlainRootPath ref then some (urlJoin base ref)
  else none

/-- Models `HolidayAPI::custom_request` in full (src/lib.rs lines 162-192):
the url-building step of lines 167-171 runs before the GET and its unwraps
panic when the url library rejects the lowercased endpoint — `none` covers
those panics (and the reference forms outside the fragment classified by
`urlJoinCheck`, where the model does not warrant success); when the step is
warranted, the send and response handling of lines 172-192 follows as
`custom_request`. -/
def HolidayAPI.custom_request_run (api : HolidayAPI) (endpoint : String)
    (parameters : List (String × String)) (outcome : TransportOutcome) :
    Option (Except HolidayAPIError HttpResponse) :=
  match urlJoinCheck api.base_url (lowerAscii endpoint) with
  | none => none
  | some _ => HolidayAPI.custom_request api endpoint parameters outcome

/-!
Helper lemmas.
-/

theorem is_valid_key_ok_iff (s : String) :
    HolidayAPI.is_valid_key s = Except.ok () ↔ regexUuidIsMatch s.data = true := by
  unfold HolidayAPI.is_valid_key
  cases hm : regexUuidIsMatch s.data <;> simp

theorem contains_valid_versions (v : Int) :
    valid_versions.contains v = true ↔ v = 1 := by
  simp [valid_versions, List.contains]

theorem is_valid_version_eq (v : Int) :
    HolidayAPI.is_valid_version v =
      (if v = 1 then Except.ok () else Except.error (HolidayAPIError.InvalidVersion
        ("Invalid version: " ++ toString v ++ ", please choose: [1]"))) := by
  unfold HolidayAPI.is_valid_version
  by_cases h : v = 1
  · subst h; rfl
  · have hc : valid_versions.contains v = false := by
      cases hcc : valid_versions.contains v
      · rfl
      · exact absurd ((contains_valid_versions v).mp hcc) h
    rw [hc]
    simp [h]

theorem hexRun_split (n : Nat) : ∀ cs rest : List Char, hexRun n cs = some rest →
    ∃ p, cs = p ++ rest ∧ ∀ xs, hexRun n (p ++ xs) = some xs := by
  induction n with
  | zero =>
    intro cs rest h
    simp [hexRun] at h
    subst h
    exact ⟨[], rfl, fun xs => rfl⟩
  | succ n ih =>
    intro cs rest h
    cases cs with
    | nil => simp [hexRun] at h
    | cons c cs =>
      unfold hexRun at h
      cases hc : isHexLower c with
      | false => rw [hc] at h; simp at h
      | true =>
        rw [hc] at h
        simp at h
        obtain ⟨p, rfl, hp⟩ := ih cs rest h
        exact ⟨c :: p, rfl, fun xs => by simp [hexRun, hc, hp xs]⟩

theorem dashRun_split : ∀ cs rest : List Char, dashRun cs = some rest →
    ∃ p, cs = p ++ rest ∧ ∀ xs, dashRun (p ++ xs) = some xs := by
  intro cs rest h
  cases cs with
  | nil => simp [dashRun] at h
  | cons c cs =>
    simp only [dashRun] at h
    cases hc : (c == Char.ofNat 45) with
    | false => rw [hc] at h; simp at h
    | true =>
      rw [hc] at h
      simp at h
      subst h
      exact ⟨[c], rfl, fun xs => by simp [dashRun, hc]⟩

theorem runSteps_split (fs : List (List Char → Option (List Char)))
    (hfs : ∀ f ∈ fs, ∀ cs rest, f cs = some rest →
      ∃ p, cs = p ++ rest ∧ ∀ xs, f (p ++ xs) = some xs) :
    ∀ cs rest, runSteps fs cs = some rest →
      ∃ p, cs = p ++ rest ∧ ∀ xs, runSteps fs (p ++ xs) = some xs := by
  induction fs with
  | nil =>
    intro cs rest h
    simp [runSteps] at h
    subst h
    exact ⟨[], rfl, fun xs => rfl⟩
  | cons f fs ih =>
    intro cs rest h
    simp only [runSteps] at h
    obtain ⟨mid, hf, hr⟩ := Option.bind_eq_some.mp h
    obtain ⟨p1, rfl, hfp⟩ := hfs f (List.mem_cons_self f fs) _ mid hf
    obtain ⟨p2, rfl, hrp⟩ := ih (fun g hg => hfs g (List.mem_cons_of_mem f hg)) mid rest hr
    refine ⟨p1 ++ p2, by rw [List.append_assoc], fun xs => ?_⟩
    rw [List.append_assoc]
    simp only [runSteps, hfp (p2 ++ xs), Option.some_bind]
    exact hrp xs

theorem uuidSteps_split : ∀ f ∈ uuidSteps, ∀ cs rest, f cs = some rest →
    ∃ p, cs = p ++ rest ∧ ∀ xs, f (p ++ xs) = some xs := by
  intro f hf
  simp only [uuidSteps, List.mem_cons, List.not_mem_nil, or_false] at hf
  rcases hf with h | h | h | h | h | h | h | h | h <;> subst h
  case inl => exact hexRun_split 8
  case inr.inl => exact dashRun_split
  all_goals first
    | exact hexRun_split 4
    | exact hexRun_split 12
    | exact dashRun_split

theorem uuidConsume_split (cs rest : List Char) (h : uuidConsume cs = some rest) :
    ∃ p, cs = p ++ rest ∧ isUuidShape p = true := by
  obtain ⟨p, rfl, hp⟩ := runSteps_split uuidSteps uuidSteps_split cs rest h
  refine ⟨p, rfl, ?_⟩
  have hps : uuidConsume p = some [] := by
    have h0 := hp []
    rw [List.append_nil] at h0
    exact h0
  simp [isUuidShape, hps]

theorem uuidShape_append (p xs : List Char) (h : isUuidShape p = true) :
    uuidConsume (p ++ xs) = some xs := by
  have hp : uuidConsume p = some [] := by
    unfold isUuidShape at h
    cases hc : uuidConsume p with
    | none => rw [hc] at h; simp at h
    | some r =>
      cases r with
      | nil => rfl
      | cons a r => rw [hc] at h; simp at h
  obtain ⟨q, hq, hqall⟩ := runSteps_split uuidSteps uuidSteps_split p [] hp
  rw [List.append_nil] at hq
  subst hq
  exact hqall xs

theorem matchFrom_iff (cs : List Char) :
    matchUuidFrom cs = true ↔ ∃ mid post, cs = mid ++ post ∧ isUuidShape mid = true := by
  constructor
  · intro h
    unfold matchUuidFrom at h
    cases hc : uuidConsume cs with
    | none => rw [hc] at h; simp at h
    | some rest =>
      obtain ⟨p, hp, hs⟩ := uuidConsume_split cs rest hc
      exact ⟨p, rest, hp, hs⟩
  · rintro ⟨mid, post, rfl, h⟩
    unfold matchUuidFrom
    rw [uuidShape_append mid post h]
    rfl

theorem regexMatch_iff (cs : List Char) :
    regexUuidIsMatch cs = true ↔ ∃ pre rest, cs = pre ++ rest ∧ matchUuidFrom rest = true := by
  induction cs with
  | nil =>
    simp only [regexUuidIsMatch]
    constructor
    · intro h
      exact ⟨[], [], rfl, h⟩
    · rintro ⟨pre, rest, heq, h⟩
      obtain ⟨rfl, rfl⟩ := List.append_eq_nil.mp heq.symm
      exact h
  | cons c cs ih =>
    simp only [regexUuidIsMatch, Bool.or_eq_true, ih]
    constructor
    · rintro (h | ⟨pre, rest, rfl, h⟩)
      · exact ⟨[], c :: cs, rfl, h⟩
      · exact ⟨c :: pre, rest, rfl, h⟩
    · rintro ⟨pre, rest, heq, h⟩
      cases pre with
      | nil =>
        simp only [List.nil_append] at heq
        subst heq
        exact Or.inl h
      | cons d pre =>
        simp only [List.cons_append, List.cons.injEq] at heq
        obtain ⟨rfl, rfl⟩ := heq
        exact Or.inr ⟨pre, rest, rfl, h⟩

theorem filter_key_filter_not (name : String) (ps : List (String × String)) :
    (ps.filter (fun p => !(p.1 == name))).filter (fun p => p.1 == name) = [] := by
  induction ps with
  | nil => rfl
  | cons p ps ih =>
    cases hb : (p.1 == name) <;> simp [List.filter_cons, hb, ih]

theorem filter_insert_twice (ps : List (String × String)) (name v1 v2 : String) :
    (insertParam (insertParam ps name v1) name v2).filter (fun p => p.1 == name)
      = [(name, v2)] := by
  simp only [insertParam, List.filter_cons, List.filter_filter]
  simp only [beq_self_eq_true, Bool.not_true, Bool.false_and, if_true, if_false]
  have h : ∀ qs : List (String × String),
      (qs.filter (fun p => !(p.1 == name))).filter (fun p => p.1 == name) = [] :=
    fun qs => filter_key_filter_not name qs
  simp [filter_key_filter_not, List.filter_filter]

theorem startsWithSlash_of_plain (s : String) (h : isPlainSegment s = true) :
    startsWithSlash s = false := by
  unfold isPlainSegment at h
  cases hd : s.data with
  | nil => simp [startsWithSlash, hd]
  | cons c cs =>
    rw [hd] at h
    simp only [List.all_cons, Bool.and_eq_true] at h
    have hc : (c == Char.ofNat 47) = false := by
      cases hc2 : (c == Char.ofNat 47) with
      | false => rfl
      | true =>
        have hce : c = Char.ofNat 47 := beq_iff_eq.mp hc2
        subst hce
        have h1 := h.1
        have h2 : plainChar (Char.ofNat 47) = false := by decide
        rw [h2] at h1
        exact absurd h1 (by simp)
    simp [startsWithSlash, hd, hc]

/-!
Claim theorems.
-/

/-- Claim C1, counterexample: the claim says that every string that does not
match the uuid pattern as a whole (wrong group lengths among the examples) is
rejected, but `is_valid_key` uses an unanchored `Regex::is_match`, so the
38-character key below, whose first group has 10 digits and which therefore
is not of the uuid shape, is accepted because a 36-character substring of it
matches the pattern. -/
theorem c1_counterexample :
    HolidayAPI.is_valid_key ("0000000000-0000-0000-0000-000000000000") = Except.ok () ∧
    isUuidShape (String.data ("0000000000-0000-0000-0000-000000000000")) = false :=
  ⟨rfl, rfl⟩

/-- Claim C1, amended: `is_valid_key` returns Ok exactly when some contiguous
substring of the key matches the uuid-shape pattern
(8-4-4-4-12 lowercase hex groups); it returns Err(InvalidKeyFormat) exactly
when no substring matches, which covers the empty string, wrong hyphenation
and uppercase hex, but not strings merely containing a matching substring. -/
theorem c1_amended_substring_semantics (s : String) :
    HolidayAPI.is_valid_key s = Except.ok () ↔
      ∃ pre mid post : List Char, s.data = pre ++ (mid ++ post) ∧ isUuidShape mid = true := by
  rw [is_valid_key_ok_iff, regexMatch_iff]
  constructor
  · rintro ⟨pre, rest, heq, h⟩
    obtain ⟨mid, post, rfl, hmid⟩ := (matchFrom_iff rest).mp h
    exact ⟨pre, mid, post, heq, hmid⟩
  · rintro ⟨pre, mid, post, heq, hmid⟩
    exact ⟨pre, mid ++ post, heq, (matchFrom_iff (mid ++ post)).mpr ⟨mid, post, rfl, hmid⟩⟩

/-- Claim C5: `is_valid_version` succeeds exactly on version 1 and fails with
`InvalidVersion` on every other integer. -/
theorem c5_version_one_only (v : Int) :
    (HolidayAPI.is_valid_version v = Except.ok () ↔ v = 1) ∧
    (v ≠ 1 → HolidayAPI.is_valid_version v = Except.error (HolidayAPIError.InvalidVersion
      ("Invalid version: " ++ toString v ++ ", please choose: [1]"))) := by
  rw [is_valid_version_eq]
  by_cases h : v = 1 <;> simp [h]

/-- Witness for C5 at versions 1, 2 and -1. -/
theorem c5_version_one_only_witness :
    HolidayAPI.is_valid_version 1 = Except.ok () ∧
    HolidayAPI.is_valid_version 2 = Except.error (HolidayAPIError.InvalidVersion
      ("Invalid version: 2, please choose: [1]")) ∧
    HolidayAPI.is_valid_version (-1) = Except.error (HolidayAPIError.InvalidVersion
      ("Invalid version: -1, please choose: [1]")) :=
  ⟨(c5_version_one_only 1).1.mpr rfl,
   (c5_version_one_only 2).2 (by decide),
   (c5_version_one_only (-1)).2 (by decide)⟩

/-- Claim C4: `with_version` validates the key first and the version second:
an invalid key yields the key-format error whatever the version is, a valid
key with an unsupported version yields `InvalidVersion`, and a valid key with
a supported version yields the facade. -/
theorem c4_with_version_validation_order (key : String) (version : Int) :
    (HolidayAPI.is_valid_key key ≠ Except.ok () →
      HolidayAPI.with_version key version =
        Except.error (HolidayAPIError.InvalidKeyFormat key)) ∧
    (HolidayAPI.is_valid_key key = Except.ok () → version ≠ 1 →
      HolidayAPI.with_version key version = Except.error (HolidayAPIError.InvalidVersion
        ("Invalid version: " ++ toString version ++ ", please choose: [1]"))) ∧
    (HolidayAPI.is_valid_key key = Except.ok () → version = 1 →
      HolidayAPI.with_version key version =
        Except.ok (HolidayAPI.construct_api key version)) := by
  refine ⟨?_, ?_, ?_⟩
  · intro hne
    have hk : HolidayAPI.is_valid_key key =
        Except.error (HolidayAPIError.InvalidKeyFormat key) := by
      unfold HolidayAPI.is_valid_key at hne ⊢
      cases hm : regexUuidIsMatch key.data <;> simp [hm] at hne ⊢
    unfold HolidayAPI.with_version
    rw [hk]
    rfl
  · intro hk hv
    unfold HolidayAPI.with_version
    rw [hk, is_valid_version_eq, if_neg hv]
    rfl
  · intro hk hv
    unfold HolidayAPI.with_version
    rw [hk, is_valid_version_eq, if_pos hv]
    rfl

/-- Witness for C4: an invalid key with an invalid version yields the
key-format error, a valid key with version 2 yields the version error, and a
valid key with version 1 yields the facade. -/
theorem c4_with_version_validation_order_witness :
    HolidayAPI.with_version ("bad-key") 2 =
      Except.error (HolidayAPIError.InvalidKeyFormat ("bad-key")) ∧
    HolidayAPI.with_version ("00000000-0000-0000-0000-000000000000") 2 =
      Except.error (HolidayAPIError.InvalidVersion
        ("Invalid version: 2, please choose: [1]")) ∧
    HolidayAPI.with_version ("00000000-0000-0000-0000-000000000000") 1 =
      Except.ok (HolidayAPI.construct_api ("00000000-0000-0000-0000-000000000000") 1) :=
  ⟨(c4_with_version_validation_order ("bad-key") 2).1
      (by rw [show HolidayAPI.is_valid_key ("bad-key") =
            Except.error (HolidayAPIError.InvalidKeyFormat ("bad-key")) from rfl]; simp),
   (c4_with_version_validation_order ("00000000-0000-0000-0000-000000000000") 2).2.1
      rfl (by decide),
   (c4_with_version_validation_order ("00000000-0000-0000-0000-000000000000") 1).2.2
      rfl rfl⟩

/-- Claim C6: for every key accepted by the validator, `new` builds the
facade with the version-1 base url `https://holidayapi.com/v1/` (which
contains `v1`) and with the supplied key. -/
theorem c6_new_defaults_to_v1 (key : String)
    (h : HolidayAPI.is_valid_key key = Except.ok ()) :
    HolidayAPI.new key =
      Except.ok { base_url := "https://holidayapi.com/v1/", key := key } := by
  unfold HolidayAPI.new
  rw [h]
  rfl

/-- Witness for C6 at the all-zero uuid key. -/
theorem c6_new_defaults_to_v1_witness :
    HolidayAPI.new ("00000000-0000-0000-0000-000000000000") =
      Except.ok { base_url := "https://holidayapi.com/v1/",
                  key := "00000000-0000-0000-0000-000000000000" } :=
  c6_new_defaults_to_v1 ("00000000-0000-0000-0000-000000000000") rfl

/-- Claim C10: when the GET fails at the transport level, `custom_request`
wraps the transport error (which has no HTTP status) in a `RequestError`
whose message component is the empty string. -/
theorem c10_send_failure_empty_message (api : HolidayAPI) (endpoint : String)
    (parameters : List (String × String)) (u : Option String) :
    HolidayAPI.custom_request api endpoint parameters (TransportOutcome.sendFailure u) =
      some (Except.error (HolidayAPIError.RequestError { status := none, url := u } "")) :=
  rfl

/-- Claim C7, counterexample: the claim states the request url for every
endpoint path string, but `Url::join` resolves an endpoint beginning with a
slash against the host root, discarding the version path of the base url, so
for the endpoint `/evil` the built url is not the base url followed by the
lowercased endpoint. -/
theorem c7_counterexample :
    HolidayAPI.custom_request_url apiC ("/evil") [] =
      "https://holidayapi.com/evil?key=00000000-0000-0000-0000-000000000000" ∧
    HolidayAPI.custom_request_url apiC ("/evil") [] ≠
      apiC.base_url ++ lowerAscii ("/evil") ++ "?key=" ++ apiC.key
        ++ serializeParams [] := by
  constructor
  · rfl
  · decide

/-- Claim C7, amended: for every endpoint that is a plain relative path
segment (no leading slash and no reserved url characters after
ASCII-lowercasing), `custom_request` builds the url as the base url of the
facade, then the lowercased endpoint, then `?key=` and the key, then the
caller-supplied parameters as form-urlencoded query pairs; an endpoint
beginning with a slash is instead resolved against the host root. -/
theorem c7_amended_url_shape (api : HolidayAPI) (endpoint : String)
    (parameters : List (String × String))
    (h : isPlainSegment (lowerAscii endpoint) = true) :
    HolidayAPI.custom_request_url api endpoint parameters =
      api.base_url ++ lowerAscii endpoint ++ "?key=" ++ api.key
        ++ serializeParams parameters := by
  have hs := startsWithSlash_of_plain (lowerAscii endpoint) h
  unfold HolidayAPI.custom_request_url urlJoin
  rw [hs]
  simp

/-- Witness for C7 (amended) at the countries endpoint with one parameter. -/
theorem c7_amended_url_shape_witness :
    HolidayAPI.custom_request_url apiC ("holidays") [("month", "10")] =
      apiC.base_url ++ lowerAscii ("holidays") ++ "?key=" ++ apiC.key
        ++ serializeParams [("month", "10")] :=
  c7_amended_url_shape apiC ("holidays") [("month", "10")] (by decide)

/-- Claim C3: on a non-success HTTP status whose body is a JSON object with a
string `error` field, `custom_request` (and the builder `get()` path, which
shares it) returns a `RequestError` whose message equals that field and whose
wrapped transport error carries the received status. -/
theorem c3_error_status_message (api : HolidayAPI) (endpoint : String)
    (parameters rq op : List (String × String)) (status : Nat)
    (fields : List (String × Json)) (msg : String)
    (hs : isErrorStatus status = true)
    (hf : jsonGet fields ("error") = some (Json.str msg)) :
    HolidayAPI.custom_request api endpoint parameters
        (TransportOutcome.response status (BodyRead.text (some (Json.obj fields)))) =
      some (Except.error (HolidayAPIError.RequestError
        { status := some status,
          url := some (HolidayAPI.custom_request_url api endpoint parameters) } msg)) ∧
    Request.get { api := api, endpoint := endpoint, required := rq, parameters := op }
        (TransportOutcome.response status (BodyRead.text (some (Json.obj fields)))) =
      some (Except.error (HolidayAPIError.RequestError
        { status := some status,
          url := some (HolidayAPI.custom_request_url api endpoint (rq ++ op)) } msg)) := by
  have h1 : ∀ ps : List (String × String), HolidayAPI.custom_request api endpoint ps
      (TransportOutcome.response status (BodyRead.text (some (Json.obj fields)))) =
      some (Except.error (HolidayAPIError.RequestError
        { status := some status,
          url := some (HolidayAPI.custom_request_url api endpoint ps) } msg)) := by
    intro ps
    simp [HolidayAPI.custom_request, errorMsgOf, hs, Json.asObject, hf, Json.asStr]
  exact ⟨h1 parameters, h1 (rq ++ op)⟩

/-- Witness for C3: a 401 response with body carrying `error` text
`Unauthorized` yields a RequestError with that message and status 401, on
both the custom-request and the builder path. -/
theorem c3_error_status_message_witness :
    HolidayAPI.custom_request apiC ("countries") []
        (TransportOutcome.response 401
          (BodyRead.text (some (Json.obj [("error", Json.str ("Unauthorized"))])))) =
      some (Except.error (HolidayAPIError.RequestError
        { status := some 401,
          url := some (HolidayAPI.custom_request_url apiC ("countries") []) }
        ("Unauthorized"))) ∧
    Request.get { api := apiC, endpoint := ("countries"), required := [], parameters := [] }
        (TransportOutcome.response 401
          (BodyRead.text (some (Json.obj [("error", Json.str ("Unauthorized"))])))) =
      some (Except.error (HolidayAPIError.RequestError
        { status := some 401,
          url := some (HolidayAPI.custom_request_url apiC ("countries") ([] ++ [])) }
        ("Unauthorized"))) :=
  c3_error_status_message apiC ("countries") [] [] [] 401
    [("error", Json.str ("Unauthorized"))] ("Unauthorized") (by decide) rfl

/-- Claim C8 (spec-modelled): no setter of a Request builder changes the
facade, the endpoint or the required fields set at construction, and setting
the same optional parameter twice leaves only the last value for that name:
in particular month 12 then month 10 leaves only the pair month, 10. -/
theorem c8_builder_invariants (r : Request) (a : Int) (t name v1 v2 : String)
    (ps : List (String × String)) :
    ((r.month a).api = r.api ∧ (r.month a).endpoint = r.endpoint ∧
      (r.month a).required = r.required) ∧
    ((r.day a).api = r.api ∧ (r.day a).endpoint = r.endpoint ∧
      (r.day a).required = r.required) ∧
    ((r.publicFlag).api = r.api ∧ (r.publicFlag).endpoint = r.endpoint ∧
      (r.publicFlag).required = r.required) ∧
    ((r.upcoming).api = r.api ∧ (r.upcoming).endpoint = r.endpoint ∧
      (r.upcoming).required = r.required) ∧
    ((r.search t).api = r.api ∧ (r.search t).endpoint = r.endpoint ∧
      (r.search t).required = r.required) ∧
    ((insertParam (insertParam ps name v1) name v2).filter (fun p => p.1 == name)
      = [(name, v2)]) ∧
    (((r.month 12).month 10).parameters.filter (fun p => p.1 == ("month"))
      = [(("month"), ("10"))]) := by
  refine ⟨⟨rfl, rfl, rfl⟩, ⟨rfl, rfl, rfl⟩, ⟨rfl, rfl, rfl⟩, ⟨rfl, rfl, rfl⟩,
    ⟨rfl, rfl, rfl⟩, filter_insert_twice ps name v1 v2, ?_⟩
  exact filter_insert_twice r.parameters ("month") (toString (12 : Int)) (toString (10 : Int))

/-- Claim C9: no operation returns the `InvalidOrExpiredKey` variant: every
error produced by `new`, `with_version`, `custom_request` or a builder
`get()` is `InvalidKeyFormat`, `InvalidVersion` or `RequestError`. -/
theorem c9_no_invalid_or_expired_key (key : String) (version : Int) (api : HolidayAPI)
    (endpoint : String) (parameters : List (String × String))
    (outcome : TransportOutcome) (r : Request) :
    exceptHasIOE (HolidayAPI.new key) = false ∧
    exceptHasIOE (HolidayAPI.with_version key version) = false ∧
    resultHasIOE (HolidayAPI.custom_request api endpoint parameters outcome) = false ∧
    resultHasIOE (Request.get r outcome) = false := by
  have hcr : ∀ (a : HolidayAPI) (ep : String) (ps : List (String × String)),
      resultHasIOE (HolidayAPI.custom_request a ep ps outcome) = false := by
    intro a ep ps
    cases outcome with
    | sendFailure u => rfl
    | response st body =>
      cases hs : isErrorStatus st with
      | false => simp [HolidayAPI.custom_request, hs, resultHasIOE]
      | true =>
        cases hv : errorMsgOf body with
        | none => simp [HolidayAPI.custom_request, hs, hv, resultHasIOE]
        | some msg =>
          simp [HolidayAPI.custom_request, hs, hv, resultHasIOE, errIsIOE]
  refine ⟨?_, ?_, hcr api endpoint parameters, hcr r.api r.endpoint (r.required ++ r.parameters)⟩
  · unfold HolidayAPI.new
    cases hm : regexUuidIsMatch key.data <;>
      simp [HolidayAPI.is_valid_key, hm, Except.bind, exceptHasIOE, errIsIOE]
  · unfold HolidayAPI.with_version
    cases hm : regexUuidIsMatch key.data with
    | false => simp [HolidayAPI.is_valid_key, hm, Except.bind, exceptHasIOE, errIsIOE]
    | true =>
      rw [is_valid_version_eq]
      by_cases hv : version = 1 <;>
        simp [HolidayAPI.is_valid_key, hm, hv, Except.bind, exceptHasIOE, errIsIOE]

/-- Claim C2, counterexample: a `RequestError` produced from a transport-level
send failure is an externally reachable error value, and displaying it does
not complete: the `Display` implementation unwraps `status()`, which is
`None` for a send failure, so the claim that displaying every returned error
value completes without panicking is false. -/
theorem c2_counterexample :
    HolidayAPI.custom_request_run apiC ("countries") []
        (TransportOutcome.sendFailure (some ("https://holidayapi.com/v1/countries"))) =
      some (Except.error (HolidayAPIError.RequestError
        { status := none, url := some ("https://holidayapi.com/v1/countries") } "")) ∧
    displayError (HolidayAPIError.RequestError
        { status := none, url := some ("https://holidayapi.com/v1/countries") } "") =
      none :=
  ⟨rfl, rfl⟩

/-- Claim C2, amended: the panics reachable from outside are these, so the
single permitted exception of the original claim is incomplete: (a) the
url-building step of `custom_request` panics when the url library rejects
the ASCII-lowercased endpoint (for example `http://`, whose host is empty);
endpoints that are plain segments or plain root paths are warranted safe;
(b) the error path of `custom_request` panics exactly when, on a non-success
status, the response body cannot be read, is not valid JSON, or is not a
JSON object with a string `error` field; (c) displaying a `RequestError`
produced from a transport-level send failure panics on the `status()`
unwrap.  Every error value actually returned by `new`, `with_version` or
`custom_request` displays without panicking unless it wraps a send
failure. -/
theorem c2_amended_display_totality (key : String) (version : Int) (api : HolidayAPI)
    (endpoint : String) (parameters : List (String × String)) (status : Nat)
    (body : BodyRead) (u : Option String) (e : HolidayAPIError) :
    (HolidayAPI.new key = Except.error e → (displayError e).isSome = true) ∧
    (HolidayAPI.with_version key version = Except.error e →
      (displayError e).isSome = true) ∧
    (HolidayAPI.custom_request_run api endpoint parameters
        (TransportOutcome.response status body) = some (Except.error e) →
      (displayError e).isSome = true) ∧
    (HolidayAPI.custom_request_run api endpoint parameters
        (TransportOutcome.sendFailure u) = some (Except.error e) →
      displayError e = none) ∧
    (HolidayAPI.custom_request_run api endpoint parameters
        (TransportOutcome.response status body) = none ↔
      (urlJoinCheck api.base_url (lowerAscii endpoint) = none ∨
        (isErrorStatus status = true ∧ errorMsgOf body = none))) ∧
    (HolidayAPI.custom_request_run api endpoint parameters
        (TransportOutcome.sendFailure u) = none ↔
      urlJoinCheck api.base_url (lowerAscii endpoint) = none) ∧
    HolidayAPI.custom_request_run apiC ("http://") []
        (TransportOutcome.sendFailure none) = none := by
  refine ⟨?_, ?_, ?_, ?_, ?_, ?_, rfl⟩
  · intro h
    unfold HolidayAPI.new HolidayAPI.is_valid_key at h
    cases hm : regexUuidIsMatch key.data with
    | true => simp [hm, Except.bind] at h
    | false =>
      simp [hm, Except.bind] at h
      subst h
      rfl
  · intro h
    unfold HolidayAPI.with_version HolidayAPI.is_valid_key at h
    cases hm : regexUuidIsMatch key.data with
    | false =>
      simp [hm, Except.bind] at h
      subst h
      rfl
    | true =>
      rw [is_valid_version_eq] at h
      by_cases hv : version = 1
      · rw [if_pos hv] at h
        simp [hm, Except.bind] at h
      · rw [if_neg hv] at h
        simp [hm, Except.bind] at h
        subst h
        rfl
  · intro h
    cases hj : urlJoinCheck api.base_url (lowerAscii endpoint) with
    | none => simp [HolidayAPI.custom_request_run, hj] at h
    | some joined =>
      simp only [HolidayAPI.custom_request_run, hj] at h
      cases hs : isErrorStatus status with
      | false => simp [HolidayAPI.custom_request, hs] at h
      | true =>
        cases hv : errorMsgOf body with
        | none => simp [HolidayAPI.custom_request, hs, hv] at h
        | some msg =>
          simp [HolidayAPI.custom_request, hs, hv] at h
          subst h
          rfl
  · intro h
    cases hj : urlJoinCheck api.base_url (lowerAscii endpoint) with
    | none => simp [HolidayAPI.custom_request_run, hj] at h
    | some joined =>
      simp only [HolidayAPI.custom_request_run, hj] at h
      simp [HolidayAPI.custom_request] at h
      subst h
      rfl
  · cases hj : urlJoinCheck api.base_url (lowerAscii endpoint) with
    | none => simp [HolidayAPI.custom_request_run, hj]
    | some joined =>
      cases hs : isErrorStatus status with
      | false =>
        simp [HolidayAPI.custom_request_run, hj, HolidayAPI.custom_request, hs]
      | true =>
        cases hv : errorMsgOf body with
        | none =>
          simp [HolidayAPI.custom_request_run, hj, HolidayAPI.custom_request, hs, hv]
        | some msg =>
          simp [HolidayAPI.custom_request_run, hj, HolidayAPI.custom_request, hs, hv]
  · cases hj : urlJoinCheck api.base_url (lowerAscii endpoint) with
    | none => simp [HolidayAPI.custom_request_run, hj]
    | some joined =>
      simp [HolidayAPI.custom_request_run, hj, HolidayAPI.custom_request]

/-- Witness for C2 (amended): one concrete instance of each implication. -/
theorem c2_amended_display_totality_witness :
    (displayError (HolidayAPIError.InvalidKeyFormat ("bad"))).isSome = true ∧
    (displayError (HolidayAPIError.InvalidVersion
      ("Invalid version: 2, please choose: [1]"))).isSome = true ∧
    (displayError (HolidayAPIError.RequestError
      { status := some 401,
        url := some (HolidayAPI.custom_request_url apiC ("countries") []) }
      ("Unauthorized"))).isSome = true ∧
    displayError (HolidayAPIError.RequestError
      { status := none, url := some ("u") } "") = none :=
  ⟨(c2_amended_display_totality ("bad") 1 apiC ("countries") [] 401
      (BodyRead.text none) none
      (HolidayAPIError.InvalidKeyFormat ("bad"))).1 rfl,
   (c2_amended_display_totality ("00000000-0000-0000-0000-000000000000") 2 apiC
      ("countries") [] 401 (BodyRead.text none) none (HolidayAPIError.InvalidVersion
        ("Invalid version: 2, please choose: [1]"))).2.1 rfl,
   (c2_amended_display_totality ("k") 1 apiC ("countries") [] 401
      (BodyRead.text (some (Json.obj [("error", Json.str ("Unauthorized"))]))) none
      (HolidayAPIError.RequestError
        { status := some 401,
          url := some (HolidayAPI.custom_request_url apiC ("countries") []) }
        ("Unauthorized"))).2.2.1 rfl,
   (c2_amended_display_totality ("k") 1 apiC ("countries") [] 401
      (BodyRead.text none) (some ("u"))
      (HolidayAPIError.RequestError
        { status := none, url := some ("u") } "")).2.2.2.1 rfl⟩
